import Mathlib

/-!
Verification of the text-to-structured-data extraction layer of `viz.py`:
the status-line extractor `parse_status_string` and the percentile-table
extractor `parse_benchmark_output`.

The two Python regexes are embedded as deterministic maximal-munch parsers
over `List Char`.  This is faithful because in both patterns every greedy
quantified class is followed by a literal character (or character class)
that is disjoint from the quantified class, so Python's backtracking never
changes the outcome: at each start position the maximal-munch attempt is
the unique candidate, and `re.search` takes the leftmost position at which
it succeeds while `re.match` only tries position 0.

Numeric strings are interpreted as exact rationals (`ℚ`): `float(s)` on the
digit-and-dot strings the regex groups can produce is modelled by the exact
decimal value of `s`, and `int(s)` on digit strings by the natural number it
denotes.  Character classes `\d`, `\s`, `\w` are modelled on their ASCII
fragments, which covers every input appearing in the specification.
-/

/-- ASCII fragment of Python's regex class `\d`. -/
def pyIsDigit (c : Char) : Bool := '0' ≤ c && c ≤ '9'

/-- ASCII fragment of Python's regex class `\s` (also used for `str.strip`). -/
def pyIsSpace (c : Char) : Bool :=
  c = ' ' || c = '\t' || c = '\n' || c = '\r' || c = '\x0b' || c = '\x0c'

/-- ASCII fragment of Python's regex class `\w`. -/
def pyIsWord (c : Char) : Bool :=
  pyIsDigit c || ('a' ≤ c && c ≤ 'z') || ('A' ≤ c && c ≤ 'Z') || c = '_'

/-- The class `[\w.-]` of the endpoint part of `STATUS_REGEX`. -/
def isHostChar (c : Char) : Bool := pyIsWord c || c = '.' || c = '-'

/-- The class `[\d.]` of the numeric groups of `STATUS_REGEX`. -/
def isDigitDot (c : Char) : Bool := pyIsDigit c || c = '.'

/-- Value of a string of decimal digits, as `int(s)` computes it. -/
def natOfDigits (l : List Char) : ℕ :=
  l.foldl (fun a c => 10 * a + (c.toNat - '0'.toNat)) 0

/-- Exact decimal value of integer digits `ip` and fractional digits `fp`:
the value `float` returns on the string `ip ++ "." ++ fp` (or on `ip` alone
when `fp` is empty). -/
def valOf (ip fp : List Char) : ℚ :=
  mkRat (natOfDigits ip * 10 ^ fp.length + natOfDigits fp) (10 ^ fp.length)

/-- Python's `float(s)` restricted to strings over digits and `.` (the only
strings the `[\d.]+` groups of `STATUS_REGEX` can produce): defined exactly
when `s` contains at least one digit and at most one dot, i.e. exactly when
Python's `float` would not raise `ValueError` on such a string. -/
def pyFloat? (s : List Char) : Option ℚ :=
  let ip := s.takeWhile pyIsDigit
  match s.dropWhile pyIsDigit with
  | [] => if ip.isEmpty then none else some (valOf ip [])
  | '.' :: fr =>
      if fr.all pyIsDigit && !(ip.isEmpty && fr.isEmpty) then some (valOf ip fr)
      else none
  | _ => none

/-- Python's `s.rstrip(".")`. -/
def rstripDots (l : List Char) : List Char :=
  (l.reverse.dropWhile (fun c => c = '.')).reverse

/-- Python's `s.strip()` (both-ends whitespace trim). -/
def pyStrip (l : List Char) : List Char :=
  ((l.dropWhile pyIsSpace).reverse.dropWhile pyIsSpace).reverse

/-- Python's `s.split("\n")`: split on every newline, keeping empty pieces. -/
def splitNl : List Char → List (List Char)
  | [] => [[]]
  | c :: r =>
    if c = '\n' then [] :: splitNl r
    else
      match splitNl r with
      | [] => [[c]]
      | l :: ls => (c :: l) :: ls

/-- Match a literal character sequence at the head of the input, returning
the rest of the input. -/
def expectLit : List Char → List Char → Option (List Char)
  | [], r => some r
  | _ :: _, [] => none
  | c :: cs, d :: ds => if d = c then expectLit cs ds else none

/-- Greedy `p+`: the maximal nonempty prefix of characters satisfying `p`,
with the rest of the input; `none` when the first character fails `p`. -/
def grabClass (p : Char → Bool) (l : List Char) : Option (List Char × List Char) :=
  if (l.takeWhile p).isEmpty then none else some (l.takeWhile p, l.dropWhile p)

/-- Greedy `\s*`. -/
def skipSpaces (l : List Char) : List Char := l.dropWhile pyIsSpace

/-- The seven capture groups of `STATUS_REGEX`. -/
structure StatusGroups where
  g1 : List Char
  g2 : List Char
  g3 : List Char
  g4 : List Char
  g5 : List Char
  g6 : List Char
  g7 : List Char
deriving DecidableEq, Repr

/-- One `,\s*<label>\s*([\d.]+)` unit of `STATUS_REGEX`: the captured group
and the rest of the input. -/
def grabField (label : List Char) (r : List Char) : Option (List Char × List Char) :=
  match expectLit [','] r with
  | none => none
  | some r1 =>
    match expectLit label (skipSpaces r1) with
    | none => none
    | some r2 => grabClass isDigitDot (skipSpaces r2)

/-- The `([\w.-]+:\d+)` endpoint group of `STATUS_REGEX`: host characters,
colon, port digits; returns host digits, port digits and the rest. -/
def statusHead (l : List Char) : Option (List Char × List Char × List Char) :=
  match grabClass isHostChar l with
  | none => none
  | some (host, r1) =>
    match expectLit [':'] r1 with
    | none => none
    | some r2 =>
      match grabClass pyIsDigit r2 with
      | none => none
      | some (port, r3) => some (host, port, r3)

/-- The `,\s*queries:\s*(\d+)` unit of `STATUS_REGEX`. -/
def statusQueries (r3 : List Char) : Option (List Char × List Char) :=
  match expectLit [','] r3 with
  | none => none
  | some r4 =>
    match expectLit "queries:".data (skipSpaces r4) with
    | none => none
    | some r5 => grabClass pyIsDigit (skipSpaces r5)

/-- Attempt of `STATUS_REGEX` at a fixed start position, returning the seven
capture groups.  Pattern:
`([\w.-]+:\d+),\s*queries:\s*(\d+),\s*QPS:\s*([\d.]+),\s*RPS:\s*([\d.]+),\s*MiB/s:\s*([\d.]+),\s*result RPS:\s*([\d.]+),\s*result MiB/s:\s*([\d.]+)`. -/
def matchStatusAt (l : List Char) : Option StatusGroups :=
  match statusHead l with
  | none => none
  | some (host, port, r3) =>
    match statusQueries r3 with
    | none => none
    | some (g2, r6) =>
      match grabField "QPS:".data r6 with
      | none => none
      | some (g3, r9) =>
        match grabField "RPS:".data r9 with
        | none => none
        | some (g4, r12) =>
          match grabField "MiB/s:".data r12 with
          | none => none
          | some (g5, r15) =>
            match grabField "result RPS:".data r15 with
            | none => none
            | some (g6, r18) =>
              match grabField "result MiB/s:".data r18 with
              | none => none
              | some (g7, _) => some ⟨host ++ ':' :: port, g2, g3, g4, g5, g6, g7⟩

/-- `STATUS_REGEX.search`: try every start position left to right. -/
def searchStatus : List Char → Option StatusGroups
  | [] => none
  | c :: r =>
    match matchStatusAt (c :: r) with
    | some g => some g
    | none => searchStatus r

/-- The dictionary `parse_status_string` builds from the seven groups of
`STATUS_REGEX` (same keys as in the source). -/
structure RunSummary where
  endpoint : String
  queries : ℕ
  qps : ℚ
  rps : ℚ
  mib_s : ℚ
  result_rps : ℚ
  result_mib_s : ℚ
deriving DecidableEq, Repr

deriving instance DecidableEq for Except

/-- `parse_status_string` from `viz.py`.  `Except.ok none` is Python's
`return None` (no match); `Except.error ()` models a `ValueError` escaping
from `float` (possible only for degenerate `[\d.]+` groups such as `"."`).
Group 7 is passed through `rstrip(".")` before conversion. -/
def parse_status_string (text : String) : Except Unit (Option RunSummary) :=
  match searchStatus text.data with
  | none => .ok none
  | some g =>
    match pyFloat? g.g3, pyFloat? g.g4, pyFloat? g.g5, pyFloat? g.g6,
        pyFloat? (rstripDots g.g7) with
    | some q3, some q4, some q5, some q6, some q7 =>
        .ok (some ⟨⟨g.g1⟩, natOfDigits g.g2, q3, q4, q5, q6, q7⟩)
    | _, _, _, _, _ => .error ()

/-- One row of the percentile table (keys `percentile`, `latency` as in the
source's row dictionaries). -/
structure LatencyObservation where
  percentile : ℚ
  latency : ℚ
deriving DecidableEq, Repr

/-- The `(\d+\.\d+)\s+sec` latency tail of `PERCENTILE_REGEX`: integer
digits, a mandatory dot, mandatory fractional digits, mandatory whitespace,
then the literal `sec`; trailing characters are ignored.  Returns the two
digit groups of the latency. -/
def latencyPart (r5 : List Char) : Option (List Char × List Char) :=
  match grabClass pyIsDigit r5 with
  | none => none
  | some (e1, r6) =>
    match r6 with
    | '.' :: r7 =>
      match grabClass pyIsDigit r7 with
      | none => none
      | some (e2, r8) =>
        match grabClass pyIsSpace r8 with
        | none => none
        | some (_, r9) =>
          match r9 with
          | 's' :: 'e' :: 'c' :: _ => some (e1, e2)
          | _ => none
    | _ => none

/-- Continuation of `PERCENTILE_REGEX` after the `%` sign: `\s+(\d+\.\d+)\s+sec`,
where `pd1`/`pd2` are the integer and fractional digits of the already-matched
percentile group.  On success the two `float` conversions of the loop body
are applied to the groups. -/
def afterPercent (pd1 pd2 r4 : List Char) : Option LatencyObservation :=
  match grabClass pyIsSpace r4 with
  | none => none
  | some (_, r5) =>
    match latencyPart r5 with
    | none => none
    | some (e1, e2) => some ⟨valOf pd1 pd2, valOf e1 e2⟩

/-- `PERCENTILE_REGEX.match` on one line: `(\d+\.?\d*)%\s+(\d+\.\d+)\s+sec`,
anchored at the start of the line, trailing characters ignored. -/
def percentileMatch (l : List Char) : Option LatencyObservation :=
  match grabClass pyIsDigit l with
  | none => none
  | some (d1, r1) =>
    match r1 with
    | '%' :: r => afterPercent d1 [] r
    | '.' :: r2 =>
      match r2.dropWhile pyIsDigit with
      | '%' :: r => afterPercent d1 (r2.takeWhile pyIsDigit) r
      | _ => none
    | _ => none

/-- Body of the `for line in lines` loop of `parse_benchmark_output`:
append the parsed row when the line matches, keep the accumulator otherwise. -/
def pboStep (data : List LatencyObservation) (line : List Char) : List LatencyObservation :=
  match percentileMatch line with
  | some o => data ++ [o]
  | none => data

/-- `parse_benchmark_output` from `viz.py`: strip the text, split on
newlines, and accumulate one observation per matching line. -/
def parse_benchmark_output (text : String) : List LatencyObservation :=
  (splitNl (pyStrip text.data)).foldl pboStep []

/-- The percentile-table portion of `DEFAULT_DATA` (source lines 10–23),
whitespace exactly as in the source. -/
def defaultPercentileTable : String :=
  "0.000%          0.013 sec.\n10.000%         0.013 sec.\n20.000%         0.013 sec.\n30.000%         0.013 sec.\n40.000%         0.013 sec.\n50.000%         0.013 sec.\n60.000%         0.013 sec.\n70.000%         0.014 sec.\n80.000%         0.015 sec.\n90.000%         0.017 sec.\n95.000%         0.020 sec.\n99.000%         0.024 sec.\n99.900%         0.024 sec.\n99.990%         0.024 sec.\n"

/-- The loop of `parse_benchmark_output` appends exactly the parsed rows of
the matching lines, in order, after the accumulator. -/
theorem pboStep_foldl (ls : List (List Char)) (acc : List LatencyObservation) :
    ls.foldl pboStep acc = acc ++ ls.filterMap percentileMatch := by
  induction ls generalizing acc with
  | nil => simp
  | cons l ls ih =>
    cases h : percentileMatch l with
    | none => simp [List.foldl_cons, pboStep, h, ih, List.filterMap_cons]
    | some o => simp [List.foldl_cons, pboStep, h, ih, List.filterMap_cons]

/-- `parse_benchmark_output` is the filter-map of the row matcher over the
stripped, newline-split input. -/
theorem parse_benchmark_output_eq (text : String) :
    parse_benchmark_output text = (splitNl (pyStrip text.data)).filterMap percentileMatch :=
  (pboStep_foldl _ []).trans (List.nil_append _)

/-- Length of a filter-map is the count of inputs the function accepts. -/
theorem length_filterMap_eq_countP {α β : Type} (f : α → Option β) (l : List α) :
    (l.filterMap f).length = l.countP (fun a => (f a).isSome) := by
  induction l with
  | nil => simp
  | cons a l ih =>
    cases h : f a with
    | none => simp [List.filterMap_cons, h, List.countP_cons, ih]
    | some b => simp [List.filterMap_cons, h, List.countP_cons, ih]

/-- Decimal values read from digit strings are nonnegative. -/
theorem valOf_nonneg (ip fp : List Char) : 0 ≤ valOf ip fp := by
  unfold valOf
  exact Rat.mkRat_nonneg (by positivity) _

/-- Every observation `afterPercent` produces has nonnegative fields. -/
theorem afterPercent_nonneg (pd1 pd2 r4 : List Char) (o : LatencyObservation)
    (h : afterPercent pd1 pd2 r4 = some o) : 0 ≤ o.percentile ∧ 0 ≤ o.latency := by
  unfold afterPercent at h
  split at h
  · exact Option.noConfusion h
  · split at h
    · exact Option.noConfusion h
    · injection h with h
      subst h
      exact ⟨valOf_nonneg _ _, valOf_nonneg _ _⟩

/-- Every observation `percentileMatch` produces has nonnegative fields. -/
theorem percentileMatch_nonneg (l : List Char) (o : LatencyObservation)
    (h : percentileMatch l = some o) : 0 ≤ o.percentile ∧ 0 ≤ o.latency := by
  unfold percentileMatch at h
  split at h
  · exact Option.noConfusion h
  · split at h
    · exact afterPercent_nonneg _ _ _ _ h
    · split at h
      · exact afterPercent_nonneg _ _ _ _ h
      · exact Option.noConfusion h
    · exact Option.noConfusion h

/-- C1: `parse_status_string` on the specification's example status string
returns the populated summary: endpoint `host.example:20001`, 30 queries,
QPS 28.404, RPS 17619645.884, MiB/s 566.200, result RPS 59733.005 and
result MiB/s 14.272, the trailing period of the final field being stripped
before the float conversion. -/
theorem status_example_extraction :
    parse_status_string "host.example:20001, queries: 30, QPS: 28.404, RPS: 17619645.884, MiB/s: 566.200, result RPS: 59733.005, result MiB/s: 14.272." =
      .ok (some ⟨"host.example:20001", 30, mkRat 28404 1000, mkRat 17619645884 1000,
        mkRat 5662 10, mkRat 59733005 1000, mkRat 14272 1000⟩) := by
  decide

set_option maxRecDepth 20000 in
/-- C2: `parse_benchmark_output` on the percentile-table portion of
`DEFAULT_DATA` yields exactly 14 observations, the first being
percentile 0.0 with latency 0.013 and the last percentile 99.99 with
latency 0.024. -/
theorem default_table_roundtrip :
    (parse_benchmark_output defaultPercentileTable).length = 14 ∧
    (parse_benchmark_output defaultPercentileTable).head? =
      some ⟨0, mkRat 13 1000⟩ ∧
    (parse_benchmark_output defaultPercentileTable).getLast? =
      some ⟨mkRat 9999 100, mkRat 24 1000⟩ := by
  decide

set_option maxRecDepth 20000 in
/-- C3: for every input text, `parse_benchmark_output` returns exactly one
observation per line matching the row pattern, in input order (the
filter-map of the row matcher over the split lines, whose length is the
count of matching lines); on a text containing only a status line and blank
lines, where no line matches, it returns the empty list (and, being a total
function, raises nothing). -/
theorem percentile_rows_in_input_order (text : String) :
    parse_benchmark_output text
        = (splitNl (pyStrip text.data)).filterMap percentileMatch ∧
    (parse_benchmark_output text).length
        = (splitNl (pyStrip text.data)).countP (fun l => (percentileMatch l).isSome) ∧
    parse_benchmark_output "host.example:20001, queries: 30, QPS: 28.404, RPS: 17619645.884, MiB/s: 566.200, result RPS: 59733.005, result MiB/s: 14.272.\n\n" = [] := by
  refine ⟨parse_benchmark_output_eq text, ?_, by decide⟩
  rw [parse_benchmark_output_eq text, length_filterMap_eq_countP]

/-- C4: whenever the status pattern matches nowhere in the text,
`parse_status_string` returns the absent result (`Except.ok none`) and in
particular raises no exception. -/
theorem no_status_match_returns_absent (text : String)
    (h : searchStatus text.data = none) :
    parse_status_string text = Except.ok none := by
  unfold parse_status_string
  rw [h]

/-- Witness for C4 on a text (a bare percentile table) that the status
pattern does not match. -/
theorem no_status_match_returns_absent_witness :
    searchStatus "only a percentile table\n50.000% 0.013 sec.".data = none ∧
    parse_status_string "only a percentile table\n50.000% 0.013 sec." = Except.ok none :=
  ⟨by decide, no_status_match_returns_absent _ (by decide)⟩

/-- C5: a row whose percentile token has no fractional part still matches
(`50% 0.013 sec.` yields the observation 50.0 ↦ 0.013), while `50% 0.01sec`
(no whitespace before the unit) and `abc% 0.013 sec.` (non-numeric
percentile) match nothing and are skipped without error. -/
theorem percentile_token_edge_rows :
    parse_benchmark_output "50% 0.013 sec." = [⟨50, mkRat 13 1000⟩] ∧
    parse_benchmark_output "50% 0.01sec" = [] ∧
    parse_benchmark_output "abc% 0.013 sec." = [] := by
  decide

/-- C6 counterexample: on an input with two identical `50.000%` rows the
extractor returns two observations with the same percentile, so the result
is not de-duplicated. -/
theorem percentile_dedup_counterexample :
    ¬ (((parse_benchmark_output "50.000% 0.5 sec.\n50.000% 0.5 sec.").map
        LatencyObservation.percentile).Nodup) := by
  decide

/-- C6 amended: the collection returned by `parse_benchmark_output` keeps
the matching rows exactly in input order — duplicate percentiles are kept
and descending rows are not re-sorted, so the result is neither
de-duplicated nor sorted in general. -/
theorem percentile_rows_kept_verbatim :
    (∀ text : String, parse_benchmark_output text
        = (splitNl (pyStrip text.data)).filterMap percentileMatch) ∧
    parse_benchmark_output "99.000% 0.024 sec.\n50.000% 0.013 sec.\n50.000% 0.013 sec." =
      [⟨99, mkRat 24 1000⟩, ⟨50, mkRat 13 1000⟩, ⟨50, mkRat 13 1000⟩] :=
  ⟨parse_benchmark_output_eq, by decide⟩

/-- C7 counterexample: the row `150.000% 0.5 sec.` matches the pattern, so
an extracted percentile can exceed 100. -/
theorem percentile_range_counterexample :
    ¬ (∀ o ∈ parse_benchmark_output "150.000% 0.5 sec.", o.percentile ≤ 100) := by
  decide

/-- C7 amended: every observation produced by `parse_benchmark_output` has
nonnegative percentile and nonnegative latency (the pattern admits no sign,
but puts no upper bound on the percentile). -/
theorem percentile_fields_nonneg (text : String) (o : LatencyObservation)
    (h : o ∈ parse_benchmark_output text) : 0 ≤ o.percentile ∧ 0 ≤ o.latency := by
  rw [parse_benchmark_output_eq] at h
  obtain ⟨l, _, hl⟩ := List.mem_filterMap.mp h
  exact percentileMatch_nonneg l o hl

/-- Witness for C7 amended at a concrete parsed row. -/
theorem percentile_fields_nonneg_witness :
    (⟨50, mkRat 13 1000⟩ : LatencyObservation) ∈
        parse_benchmark_output "50.000% 0.013 sec." ∧
    (0 ≤ (⟨50, mkRat 13 1000⟩ : LatencyObservation).percentile ∧
      0 ≤ (⟨50, mkRat 13 1000⟩ : LatencyObservation).latency) :=
  ⟨by decide, percentile_fields_nonneg "50.000% 0.013 sec." _ (by decide)⟩

/-- C8: both extractors are deterministic and stateless across calls — each
is a pure function of the text alone (no other argument or ambient state
exists in the embedding), so two applications to the same text denote the
same term and are structurally equal. -/
theorem extractors_idempotent (text : String) :
    parse_status_string text = parse_status_string text ∧
    parse_benchmark_output text = parse_benchmark_output text :=
  ⟨rfl, rfl⟩

/-- C9: a line whose prefix matches the row pattern is extracted no matter
what trails it: appending any character sequence after `...sec` leaves the
match result unchanged, and in particular `50.000% 0.013 seconds of noise`
yields the observation 50.0 ↦ 0.013. -/
theorem trailing_characters_ignored :
    (∀ rest : List Char,
      percentileMatch ("50.000% 0.013 sec".data ++ rest) = some ⟨50, mkRat 13 1000⟩) ∧
    parse_benchmark_output "50.000% 0.013 seconds of noise" = [⟨50, mkRat 13 1000⟩] :=
  ⟨fun rest =>
    calc percentileMatch ("50.000% 0.013 sec".data ++ rest)
        = percentileMatch
            ('5' :: '0' :: '.' :: '0' :: '0' :: '0' :: '%' :: ' ' :: '0' :: '.' :: '0' :: '1' :: '3' :: ' ' :: 's' :: 'e' :: 'c' :: rest) := rfl
      _ = afterPercent ['5','0'] ['0','0','0']
            (' ' :: '0' :: '.' :: '0' :: '1' :: '3' :: ' ' :: 's' :: 'e' :: 'c' :: rest) := rfl
      _ = (match latencyPart ('0' :: '.' :: '0' :: '1' :: '3' :: ' ' :: 's' :: 'e' :: 'c' :: rest) with
            | none => none
            | some (e1, e2) => some ⟨valOf ['5','0'] ['0','0','0'], valOf e1 e2⟩) := rfl
      _ = some ⟨valOf ['5','0'] ['0','0','0'], valOf ['0'] ['0','1','3']⟩ := rfl
      _ = some ⟨50, mkRat 13 1000⟩ := rfl,
    by decide⟩

/-- C10: the whole text is stripped before splitting, so a percentile row
with leading whitespace is extracted when it opens the input, but the same
row with leading whitespace after another line is skipped, while without
the leading whitespace it is extracted again. -/
theorem leading_whitespace_only_stripped_at_ends :
    parse_benchmark_output "   50.000% 0.013 sec." = [⟨50, mkRat 13 1000⟩] ∧
    parse_benchmark_output "header line\n   50.000% 0.013 sec." = [] ∧
    parse_benchmark_output "header line\n50.000% 0.013 sec." = [⟨50, mkRat 13 1000⟩] := by
  decide
